import Mathlib

/-!
Shallow embedding of the `PredictionLogger` Solidity contract
(`src/CryptoPredictor/contracts/hardhat/scripts/deploy-prediction-logger.js`)
and of the Express route handlers for the asset-analysis sentiment view
(`src/unnamed/part_000`) and the admin bulk-resolve endpoint
(`src/unnamed/part_001`).

Conventions of the embedding:
* `uint256` values are modelled as `Nat`.  Solidity ^0.8 arithmetic is
  checked: an overflowing multiplication or a division by zero reverts the
  transaction.  The only arithmetic in the contract that can overflow for
  inputs in the `uint256` range is `difference * BASIS_POINTS` inside
  `calculateAccuracy`, so that multiplication is modelled with an explicit
  `2 ^ 256` bound (returning `none` for the revert); counter increments and
  score accumulations cannot overflow on any trace whose values stay below
  `2 ^ 256` and are modelled with plain `Nat` addition.
* A reverting call is modelled as `Except.error msg` carrying the `require`
  message (or the OpenZeppelin custom error name); a revert performs no
  state change, which the embedding reflects by returning no state on error.
* Addresses are modelled as `Nat`; strings stay `String`.
-/

namespace PredictionLogger

/-- BASIS_POINTS constant of the contract: 100% = 10000 basis points. -/
def BASIS_POINTS : Nat := 10000

/-- Modulus of the Solidity `uint256` type; a checked multiplication whose
mathematical result reaches this bound reverts with `Panic(0x11)`. -/
def UINT256 : Nat := 2 ^ 256

/-- Embedding of `calculateAccuracy(uint256 predictedPrice, uint256 actualPrice)`.
Returns `none` when the Solidity call would revert: on overflow of the checked
multiplication `difference * BASIS_POINTS`, or on division by zero. -/
def calculateAccuracy (predictedPrice actualPrice : Nat) : Option Nat :=
  if predictedPrice = actualPrice then
    some BASIS_POINTS
  else
    let difference :=
      if predictedPrice > actualPrice then predictedPrice - actualPrice
      else actualPrice - predictedPrice
    if UINT256 ≤ difference * BASIS_POINTS then none
    else if actualPrice = 0 then none
    else
      let percentageDifference := difference * BASIS_POINTS / actualPrice
      if percentageDifference ≥ BASIS_POINTS then some 0
      else some (BASIS_POINTS - percentageDifference)

/-- Embedding of the `Prediction` struct. -/
structure Prediction where
  id : Nat
  predictor : Nat
  cryptocurrency : String
  currentPrice : Nat
  predictedPrice : Nat
  predictionTimestamp : Nat
  targetTimestamp : Nat
  modelType : String
  isResolved : Bool
  actualPrice : Nat
  wasAccurate : Bool
  accuracyPercentage : Nat
  additionalData : String
  deriving DecidableEq

/-- Zero value of the `Prediction` struct (the content of an unassigned
mapping slot). -/
def emptyPrediction : Prediction :=
  { id := 0, predictor := 0, cryptocurrency := "", currentPrice := 0,
    predictedPrice := 0, predictionTimestamp := 0, targetTimestamp := 0,
    modelType := "", isResolved := false, actualPrice := 0,
    wasAccurate := false, accuracyPercentage := 0, additionalData := "" }

/-- Embedding of the `UserStats` struct; the two inner mappings are total
functions from the string key, zero by default. -/
structure UserStats where
  totalPredictions : Nat
  accuratePredictions : Nat
  totalAccuracyScore : Nat
  modelTypeCount : String → Nat
  cryptoCount : String → Nat

/-- Zero value of the `UserStats` struct. -/
def emptyUserStats : UserStats :=
  { totalPredictions := 0, accuratePredictions := 0, totalAccuracyScore := 0,
    modelTypeCount := fun _ => 0, cryptoCount := fun _ => 0 }

/-- Embedding of the `ModelPerformance` struct. -/
structure ModelPerformance where
  totalPredictions : Nat
  accuratePredictions : Nat
  totalAccuracyScore : Nat
  cryptoPerformance : String → Nat

/-- Zero value of the `ModelPerformance` struct. -/
def emptyModelPerformance : ModelPerformance :=
  { totalPredictions := 0, accuratePredictions := 0, totalAccuracyScore := 0,
    cryptoPerformance := fun _ => 0 }

/-- The whole storage of the `PredictionLogger` contract.  Mappings are total
functions (Solidity mappings default every key to the zero value); the two
role flags embed the `AccessControl` role membership for `ADMIN_ROLE` and
`ORACLE_ROLE`, and `paused` embeds the `Pausable` flag. -/
structure ContractState where
  predictions : Nat → Prediction
  userStats : Nat → UserStats
  userPredictions : Nat → List Nat
  modelPerformance : String → ModelPerformance
  cryptoPredictions : String → List Nat
  modelTypePredictions : String → List Nat
  predictionCounter : Nat
  accuracyThreshold : Nat
  paused : Bool
  hasOracleRole : Nat → Bool
  hasAdminRole : Nat → Bool

/-- State right after the constructor ran with `msg.sender = deployer`:
empty storage, `accuracyThreshold = 500`, not paused, and the deployer
holding both the admin and the oracle role. -/
def initialState (deployer : Nat) : ContractState :=
  { predictions := fun _ => emptyPrediction,
    userStats := fun _ => emptyUserStats,
    userPredictions := fun _ => [],
    modelPerformance := fun _ => emptyModelPerformance,
    cryptoPredictions := fun _ => [],
    modelTypePredictions := fun _ => [],
    predictionCounter := 0,
    accuracyThreshold := 500,
    paused := false,
    hasOracleRole := fun a => a = deployer,
    hasAdminRole := fun a => a = deployer }

/-- Storage writes performed by a successful `makePrediction` call: the new
`Prediction` record, the predictor's `UserStats` counters, the three
tracking arrays, the model's `ModelPerformance.totalPredictions`, and the
incremented `predictionCounter`. -/
def makePost (s : ContractState) (sender : Nat)
    (cryptocurrency : String) (currentPrice predictedPrice targetTimestamp : Nat)
    (modelType additionalData : String) (blockTimestamp : Nat) : ContractState :=
  let predictionId := s.predictionCounter + 1
  let newPrediction : Prediction :=
    { id := predictionId, predictor := sender, cryptocurrency := cryptocurrency,
      currentPrice := currentPrice, predictedPrice := predictedPrice,
      predictionTimestamp := blockTimestamp, targetTimestamp := targetTimestamp,
      modelType := modelType, isResolved := false, actualPrice := 0,
      wasAccurate := false, accuracyPercentage := 0,
      additionalData := additionalData }
  { s with
    predictions := fun i => if i = predictionId then newPrediction else s.predictions i,
    userStats := fun a =>
      if a = sender then
        let st := s.userStats a
        { st with
          totalPredictions := st.totalPredictions + 1,
          modelTypeCount := fun m =>
            if m = modelType then st.modelTypeCount m + 1 else st.modelTypeCount m,
          cryptoCount := fun c =>
            if c = cryptocurrency then st.cryptoCount c + 1 else st.cryptoCount c }
      else s.userStats a,
    userPredictions := fun a =>
      if a = sender then s.userPredictions a ++ [predictionId] else s.userPredictions a,
    cryptoPredictions := fun c =>
      if c = cryptocurrency then s.cryptoPredictions c ++ [predictionId]
      else s.cryptoPredictions c,
    modelTypePredictions := fun m =>
      if m = modelType then s.modelTypePredictions m ++ [predictionId]
      else s.modelTypePredictions m,
    modelPerformance := fun m =>
      if m = modelType then
        let mp := s.modelPerformance m
        { mp with totalPredictions := mp.totalPredictions + 1 }
      else s.modelPerformance m,
    predictionCounter := predictionId }

/-- Embedding of `makePrediction`.  `sender` is `msg.sender` and
`blockTimestamp` is `block.timestamp`.  The `whenNotPaused` modifier runs
before the body's `require`s (rejecting with the OpenZeppelin
`EnforcedPause` error); on success the call returns the updated storage
(`makePost`, the storage writes of the function body) and the new
prediction id. -/
def makePrediction (s : ContractState) (sender : Nat)
    (cryptocurrency : String) (currentPrice predictedPrice targetTimestamp : Nat)
    (modelType additionalData : String) (blockTimestamp : Nat) :
    Except String (ContractState × Nat) :=
  if s.paused then .error "EnforcedPause"
  else if ¬ 0 < cryptocurrency.length then .error "Cryptocurrency cannot be empty"
  else if ¬ 0 < currentPrice then .error "Current price must be greater than 0"
  else if ¬ 0 < predictedPrice then .error "Predicted price must be greater than 0"
  else if ¬ blockTimestamp < targetTimestamp then .error "Target timestamp must be in the future"
  else if ¬ 0 < modelType.length then .error "Model type cannot be empty"
  else
    .ok (makePost s sender cryptocurrency currentPrice predictedPrice
      targetTimestamp modelType additionalData blockTimestamp,
      s.predictionCounter + 1)

/-- Storage writes performed by a successful `resolvePrediction` call with
computed accuracy `acc`: the four resolution fields of the prediction, the
predictor's accuracy aggregates, and the model's accuracy aggregates.
`wasAccurate` is `accuracyPercentage >= BASIS_POINTS - accuracyThreshold`
exactly as in the source. -/
def resolvePost (s : ContractState) (predictionId actualPrice acc : Nat) : ContractState :=
  let wasAccurate : Bool := decide (BASIS_POINTS - s.accuracyThreshold ≤ acc)
  let p := s.predictions predictionId
  let resolvedPrediction : Prediction :=
    { p with actualPrice := actualPrice, isResolved := true,
             accuracyPercentage := acc, wasAccurate := wasAccurate }
  { s with
    predictions := fun i =>
      if i = predictionId then resolvedPrediction else s.predictions i,
    userStats := fun a =>
      if a = p.predictor then
        let st := s.userStats a
        { st with
          accuratePredictions :=
            st.accuratePredictions + (if wasAccurate then 1 else 0),
          totalAccuracyScore := st.totalAccuracyScore + acc }
      else s.userStats a,
    modelPerformance := fun m =>
      if m = p.modelType then
        let mp := s.modelPerformance m
        { mp with
          accuratePredictions :=
            mp.accuratePredictions + (if wasAccurate then 1 else 0),
          totalAccuracyScore := mp.totalAccuracyScore + acc }
      else s.modelPerformance m }

/-- Embedding of `resolvePrediction`.  The modifiers `predictionExists` and
`notResolved` run first, in that order, followed by the body's `require`s.
A revert inside `calculateAccuracy` (checked-multiplication overflow)
aborts the whole call with no state change, even though the source assigns
`actualPrice` and `isResolved` textually before calling it: a Solidity
revert rolls those writes back. -/
def resolvePrediction (s : ContractState) (sender : Nat)
    (predictionId actualPrice blockTimestamp : Nat) :
    Except String ContractState :=
  if ¬ (0 < predictionId ∧ predictionId ≤ s.predictionCounter) then
    .error "Prediction does not exist"
  else if (s.predictions predictionId).isResolved then
    .error "Prediction already resolved"
  else if ¬ (s.hasOracleRole sender = true ∨ (s.predictions predictionId).predictor = sender) then
    .error "Not authorized to resolve prediction"
  else if ¬ 0 < actualPrice then
    .error "Actual price must be greater than 0"
  else if blockTimestamp < (s.predictions predictionId).targetTimestamp then
    .error "Cannot resolve before target timestamp"
  else
    match calculateAccuracy (s.predictions predictionId).predictedPrice actualPrice with
    | none => .error "Panic(0x11)"
    | some accuracyPercentage =>
      .ok (resolvePost s predictionId actualPrice accuracyPercentage)

/-- Embedding of the view `getUserAccuracyRate`. -/
def getUserAccuracyRate (s : ContractState) (user : Nat) : Nat :=
  if (s.userStats user).totalPredictions = 0 then 0
  else (s.userStats user).accuratePredictions * BASIS_POINTS /
    (s.userStats user).totalPredictions

/-- Embedding of the admin function `setAccuracyThreshold`. -/
def setAccuracyThreshold (s : ContractState) (sender newThreshold : Nat) :
    Except String ContractState :=
  if ¬ s.hasAdminRole sender then .error "AccessControlUnauthorizedAccount"
  else if ¬ newThreshold ≤ BASIS_POINTS then .error "Threshold cannot exceed 100%"
  else .ok { s with accuracyThreshold := newThreshold }

/-- Embedding of the admin function `pause` (OpenZeppelin `_pause` reverts
with `EnforcedPause` when already paused). -/
def pause (s : ContractState) (sender : Nat) : Except String ContractState :=
  if ¬ s.hasAdminRole sender then .error "AccessControlUnauthorizedAccount"
  else if s.paused then .error "EnforcedPause"
  else .ok { s with paused := true }

/-- Embedding of the admin function `unpause` (OpenZeppelin `_unpause`
reverts with `ExpectedPause` when not paused). -/
def unpause (s : ContractState) (sender : Nat) : Except String ContractState :=
  if ¬ s.hasAdminRole sender then .error "AccessControlUnauthorizedAccount"
  else if ¬ s.paused then .error "ExpectedPause"
  else .ok { s with paused := false }

/-- Embedding of the admin function `grantOracleRole`. -/
def grantOracleRole (s : ContractState) (sender oracle : Nat) :
    Except String ContractState :=
  if ¬ s.hasAdminRole sender then .error "AccessControlUnauthorizedAccount"
  else .ok { s with hasOracleRole := fun a => if a = oracle then true else s.hasOracleRole a }

/-- Embedding of the admin function `revokeOracleRole`. -/
def revokeOracleRole (s : ContractState) (sender oracle : Nat) :
    Except String ContractState :=
  if ¬ s.hasAdminRole sender then .error "AccessControlUnauthorizedAccount"
  else .ok { s with hasOracleRole := fun a => if a = oracle then false else s.hasOracleRole a }

/-- One successful external transaction on the contract: any state-mutating
entry point that returns without reverting.  Reverting calls change no
state and therefore induce no step. -/
inductive Step : ContractState → ContractState → Prop
  | make {s s' : ContractState} {sender : Nat} {cryptocurrency : String}
      {currentPrice predictedPrice targetTimestamp : Nat}
      {modelType additionalData : String} {blockTimestamp ret : Nat} :
      makePrediction s sender cryptocurrency currentPrice predictedPrice
        targetTimestamp modelType additionalData blockTimestamp = .ok (s', ret) →
      Step s s'
  | resolve {s s' : ContractState} {sender predictionId actualPrice blockTimestamp : Nat} :
      resolvePrediction s sender predictionId actualPrice blockTimestamp = .ok s' →
      Step s s'
  | setThreshold {s s' : ContractState} {sender newThreshold : Nat} :
      setAccuracyThreshold s sender newThreshold = .ok s' → Step s s'
  | pauseStep {s s' : ContractState} {sender : Nat} :
      pause s sender = .ok s' → Step s s'
  | unpauseStep {s s' : ContractState} {sender : Nat} :
      unpause s sender = .ok s' → Step s s'
  | grantStep {s s' : ContractState} {sender oracle : Nat} :
      grantOracleRole s sender oracle = .ok s' → Step s s'
  | revokeStep {s s' : ContractState} {sender oracle : Nat} :
      revokeOracleRole s sender oracle = .ok s' → Step s s'

/-- Zero or more successful transactions. -/
def ReachableFrom : ContractState → ContractState → Prop :=
  Relation.ReflTransGen Step

/-- States reachable from a fresh deployment. -/
def Reachable (deployer : Nat) (s : ContractState) : Prop :=
  ReachableFrom (initialState deployer) s

/-- Ids of the predictions stored so far (`1 .. predictionCounter`). -/
def storedIds (s : ContractState) : Finset Nat :=
  Finset.Icc 1 s.predictionCounter

/-- Number of stored predictions whose predictor is `u`. -/
def countUserPreds (s : ContractState) (u : Nat) : Nat :=
  ((storedIds s).filter (fun i => (s.predictions i).predictor = u)).card

/-- Number of stored predictions of `u` that are resolved and were judged
accurate. -/
def countUserAccurate (s : ContractState) (u : Nat) : Nat :=
  ((storedIds s).filter (fun i =>
    (s.predictions i).predictor = u ∧ (s.predictions i).isResolved = true ∧
      (s.predictions i).wasAccurate = true)).card

/-- The stats-consistency invariant of the spec: per user, the stored
`totalPredictions` counter agrees with the number of stored predictions by
that user, and `accuratePredictions` agrees with the number of that user's
resolved-and-accurate predictions. -/
def StatsInv (s : ContractState) : Prop :=
  ∀ u, (s.userStats u).totalPredictions = countUserPreds s u ∧
    (s.userStats u).accuratePredictions = countUserAccurate s u

lemma card_filter_insert_count {S : Finset Nat} {q : Nat → Prop} [DecidablePred q]
    {a : Nat} (ha : a ∉ S) :
    ((insert a S).filter q).card = (S.filter q).card + (if q a then 1 else 0) := by
  rw [Finset.filter_insert]
  split_ifs with h
  · rw [Finset.card_insert_of_not_mem (fun hmem => ha ((Finset.mem_filter.mp hmem).1))]
  · rfl

lemma card_filter_update {S : Finset Nat} {p q : Nat → Prop}
    [DecidablePred p] [DecidablePred q] {a : Nat} (haS : a ∈ S) (hpa : ¬ p a)
    (hagree : ∀ b ∈ S, b ≠ a → (p b ↔ q b)) :
    (S.filter q).card = (S.filter p).card + (if q a then 1 else 0) := by
  have hrepr : S = insert a (S.erase a) := (Finset.insert_erase haS).symm
  have hnotmem : a ∉ S.erase a := Finset.not_mem_erase a S
  have hq : ((insert a (S.erase a)).filter q).card =
      ((S.erase a).filter q).card + (if q a then 1 else 0) :=
    card_filter_insert_count hnotmem
  have hp : ((insert a (S.erase a)).filter p).card =
      ((S.erase a).filter p).card + (if p a then 1 else 0) :=
    card_filter_insert_count hnotmem
  have hcongr : (S.erase a).filter q = (S.erase a).filter p := by
    apply Finset.filter_congr
    intro b hb
    have hbS : b ∈ S := Finset.mem_of_mem_erase hb
    have hbne : b ≠ a := Finset.ne_of_mem_erase hb
    exact (hagree b hbS hbne).symm
  rw [hrepr, hq, hp, hcongr, if_neg hpa]
  omega

lemma storedIds_mem {s : ContractState} {i : Nat} :
    i ∈ storedIds s ↔ 1 ≤ i ∧ i ≤ s.predictionCounter := by
  simp [storedIds, Finset.mem_Icc]

lemma countUserPreds_congr {s t : ContractState}
    (hc : t.predictionCounter = s.predictionCounter)
    (hpred : ∀ i, 1 ≤ i → i ≤ s.predictionCounter →
      (t.predictions i).predictor = (s.predictions i).predictor) (u : Nat) :
    countUserPreds t u = countUserPreds s u := by
  unfold countUserPreds storedIds
  rw [hc]
  congr 1
  apply Finset.filter_congr
  intro i hi
  rw [Finset.mem_Icc] at hi
  rw [hpred i hi.1 hi.2]

lemma countUserPreds_extend {s t : ContractState} {pnew : Prediction}
    (hc : t.predictionCounter = s.predictionCounter + 1)
    (hnew : t.predictions (s.predictionCounter + 1) = pnew)
    (hold : ∀ i, i ≤ s.predictionCounter → t.predictions i = s.predictions i)
    (u : Nat) :
    countUserPreds t u = countUserPreds s u + (if pnew.predictor = u then 1 else 0) := by
  unfold countUserPreds storedIds
  rw [hc]
  rw [show Finset.Icc 1 (s.predictionCounter + 1) =
      insert (s.predictionCounter + 1) (Finset.Icc 1 s.predictionCounter) from
    (Nat.Icc_insert_succ_right (by omega)).symm]
  rw [card_filter_insert_count (by simp [Finset.mem_Icc])]
  rw [hnew]
  congr 2
  apply Finset.filter_congr
  intro i hi
  rw [Finset.mem_Icc] at hi
  rw [hold i hi.2]

lemma countUserAccurate_extend {s t : ContractState} {pnew : Prediction}
    (hc : t.predictionCounter = s.predictionCounter + 1)
    (hnew : t.predictions (s.predictionCounter + 1) = pnew)
    (hold : ∀ i, i ≤ s.predictionCounter → t.predictions i = s.predictions i)
    (u : Nat) :
    countUserAccurate t u = countUserAccurate s u +
      (if pnew.predictor = u ∧ pnew.isResolved = true ∧ pnew.wasAccurate = true
       then 1 else 0) := by
  unfold countUserAccurate storedIds
  rw [hc]
  rw [show Finset.Icc 1 (s.predictionCounter + 1) =
      insert (s.predictionCounter + 1) (Finset.Icc 1 s.predictionCounter) from
    (Nat.Icc_insert_succ_right (by omega)).symm]
  rw [card_filter_insert_count (by simp [Finset.mem_Icc])]
  rw [hnew]
  congr 2
  apply Finset.filter_congr
  intro i hi
  rw [Finset.mem_Icc] at hi
  rw [hold i hi.2]

lemma countUserAccurate_resolveStep {s t : ContractState} {a : Nat}
    (hc : t.predictionCounter = s.predictionCounter)
    (ha1 : 1 ≤ a) (ha2 : a ≤ s.predictionCounter)
    (hres : (s.predictions a).isResolved = false)
    (hold : ∀ i, i ≠ a → t.predictions i = s.predictions i) (u : Nat) :
    countUserAccurate t u = countUserAccurate s u +
      (if (t.predictions a).predictor = u ∧ (t.predictions a).isResolved = true ∧
            (t.predictions a).wasAccurate = true
       then 1 else 0) := by
  unfold countUserAccurate storedIds
  rw [hc]
  exact card_filter_update (Finset.mem_Icc.mpr ⟨ha1, ha2⟩)
    (by simp [hres])
    (fun b hb hbne => by rw [hold b hbne])
lemma countUserPreds_makePost (s : ContractState) (sender : Nat) (c : String)
    (cp pp tt : Nat) (mt ad : String) (bt u : Nat) :
    countUserPreds (makePost s sender c cp pp tt mt ad bt) u =
      countUserPreds s u + (if sender = u then 1 else 0) := by
  unfold countUserPreds storedIds makePost
  simp only
  rw [show Finset.Icc 1 (s.predictionCounter + 1) =
      insert (s.predictionCounter + 1) (Finset.Icc 1 s.predictionCounter) from
    (Nat.Icc_insert_succ_right (by omega)).symm]
  rw [card_filter_insert_count (by simp [Finset.mem_Icc])]
  congr 2
  · apply Finset.filter_congr
    intro i hi
    rw [Finset.mem_Icc] at hi
    rw [if_neg (by omega)]
  · rw [if_pos rfl]

lemma countUserAccurate_makePost (s : ContractState) (sender : Nat) (c : String)
    (cp pp tt : Nat) (mt ad : String) (bt u : Nat) :
    countUserAccurate (makePost s sender c cp pp tt mt ad bt) u =
      countUserAccurate s u := by
  unfold countUserAccurate storedIds makePost
  simp only
  rw [show Finset.Icc 1 (s.predictionCounter + 1) =
      insert (s.predictionCounter + 1) (Finset.Icc 1 s.predictionCounter) from
    (Nat.Icc_insert_succ_right (by omega)).symm]
  rw [card_filter_insert_count (by simp [Finset.mem_Icc])]
  rw [if_neg (by simp)]
  rw [Nat.add_zero]
  congr 1
  apply Finset.filter_congr
  intro i hi
  rw [Finset.mem_Icc] at hi
  rw [if_neg (by omega)]

lemma countUserPreds_resolvePost (s : ContractState) (pid ap acc u : Nat) :
    countUserPreds (resolvePost s pid ap acc) u = countUserPreds s u := by
  unfold countUserPreds storedIds resolvePost
  simp only
  congr 1
  apply Finset.filter_congr
  intro i hi
  by_cases hip : i = pid
  · subst hip
    rw [if_pos rfl]
  · rw [if_neg hip]

lemma countUserAccurate_resolvePost (s : ContractState) {pid : Nat} (ap acc u : Nat)
    (h1 : 1 ≤ pid) (h2 : pid ≤ s.predictionCounter)
    (hres : (s.predictions pid).isResolved = false) :
    countUserAccurate (resolvePost s pid ap acc) u = countUserAccurate s u +
      (if (s.predictions pid).predictor = u ∧
          decide (BASIS_POINTS - s.accuracyThreshold ≤ acc) = true
       then 1 else 0) := by
  unfold countUserAccurate storedIds resolvePost
  simp only
  rw [card_filter_update (Finset.mem_Icc.mpr ⟨h1, h2⟩)
    (p := fun i => (s.predictions i).predictor = u ∧
      (s.predictions i).isResolved = true ∧ (s.predictions i).wasAccurate = true)
    (by simp [hres])
    (fun b hb hbne => by rw [if_neg hbne])]
  simp

lemma statsInv_makePost (s : ContractState) (sender : Nat) (c : String)
    (cp pp tt : Nat) (mt ad : String) (bt : Nat) (inv : StatsInv s) :
    StatsInv (makePost s sender c cp pp tt mt ad bt) := by
  intro u
  constructor
  · rw [countUserPreds_makePost]
    simp only [makePost]
    by_cases hu : u = sender
    · simp only [hu, if_pos rfl]
      rw [(inv sender).1]
      simp
    · simp only [if_neg hu]
      rw [(inv u).1, if_neg (fun e => hu e.symm)]
      omega
  · rw [countUserAccurate_makePost]
    simp only [makePost]
    by_cases hu : u = sender
    · simp only [hu, if_pos rfl]
      exact (inv sender).2
    · simp only [if_neg hu]
      exact (inv u).2

lemma statsInv_make {s s' : ContractState} {sender : Nat} {c : String}
    {cp pp tt : Nat} {mt ad : String} {bt ret : Nat}
    (h : makePrediction s sender c cp pp tt mt ad bt = .ok (s', ret))
    (inv : StatsInv s) : StatsInv s' := by
  simp only [makePrediction] at h
  split_ifs at h
  rw [Except.ok.injEq, Prod.mk.injEq] at h
  obtain ⟨hs, hr⟩ := h
  subst hs
  exact statsInv_makePost s sender c cp pp tt mt ad bt inv

lemma statsInv_resolve {s s' : ContractState} {sender pid ap bt : Nat}
    (h : resolvePrediction s sender pid ap bt = .ok s')
    (inv : StatsInv s) : StatsInv s' := by
  simp only [resolvePrediction] at h
  split_ifs at h with h1 h2 h3 h4 h5
  split at h
  · exact Except.noConfusion h
  case _ acc heq =>
    rw [Except.ok.injEq] at h
    subst h
    rw [Bool.not_eq_true] at h2
    intro u
    constructor
    · rw [countUserPreds_resolvePost]
      simp only [resolvePost]
      by_cases hu : u = (s.predictions pid).predictor
      · simp only [hu, if_pos rfl]
        exact (inv _).1
      · simp only [if_neg hu]
        exact (inv _).1
    · rw [countUserAccurate_resolvePost s ap acc u h1.1 h1.2 h2]
      simp only [resolvePost]
      by_cases hu : u = (s.predictions pid).predictor
      · simp only [hu, if_pos rfl]
        rw [(inv _).2]
        simp
      · simp only [if_neg hu]
        rw [(inv _).2, if_neg (fun e => hu (e.1.symm))]
        omega

lemma statsInv_step {s s' : ContractState} (h : Step s s') (inv : StatsInv s) :
    StatsInv s' := by
  cases h with
  | make hm => exact statsInv_make hm inv
  | resolve hr => exact statsInv_resolve hr inv
  | setThreshold ha =>
    simp only [setAccuracyThreshold] at ha
    split_ifs at ha
    rw [Except.ok.injEq] at ha
    subst ha
    exact inv
  | pauseStep ha =>
    simp only [pause] at ha
    split_ifs at ha
    rw [Except.ok.injEq] at ha
    subst ha
    exact inv
  | unpauseStep ha =>
    simp only [unpause] at ha
    split_ifs at ha
    rw [Except.ok.injEq] at ha
    subst ha
    exact inv
  | grantStep ha =>
    simp only [grantOracleRole] at ha
    split_ifs at ha
    rw [Except.ok.injEq] at ha
    subst ha
    exact inv
  | revokeStep ha =>
    simp only [revokeOracleRole] at ha
    split_ifs at ha
    rw [Except.ok.injEq] at ha
    subst ha
    exact inv

lemma statsInv_reachableFrom {s t : ContractState} (h : ReachableFrom s t)
    (inv : StatsInv s) : StatsInv t := by
  induction h with
  | refl => exact inv
  | tail h1 h2 ih => exact statsInv_step h2 ih

lemma statsInv_init (d : Nat) : StatsInv (initialState d) := by
  intro u
  constructor <;>
    simp [initialState, countUserPreds, countUserAccurate, storedIds,
      emptyUserStats, Finset.Icc_eq_empty_of_lt]

lemma statsInv_reachable {d : Nat} {s : ContractState} (h : Reachable d s) :
    StatsInv s :=
  statsInv_reachableFrom h (statsInv_init d)

lemma frozen_step {s t : ContractState} (h : Step s t) {j : Nat}
    (hid2 : j ≤ s.predictionCounter)
    (hres : (s.predictions j).isResolved = true) :
    t.predictions j = s.predictions j ∧ j ≤ t.predictionCounter := by
  cases h with
  | make hm =>
    simp only [makePrediction] at hm
    split_ifs at hm
    rw [Except.ok.injEq, Prod.mk.injEq] at hm
    obtain ⟨hs, hr⟩ := hm
    subst hs
    refine ⟨?_, by simp only [makePost]; omega⟩
    simp only [makePost]
    rw [if_neg (by omega)]
  | resolve hr =>
    rename_i sender pid ap bt
    simp only [resolvePrediction] at hr
    split_ifs at hr with h1 h2 h3 h4 h5
    split at hr
    · exact Except.noConfusion hr
    case _ acc heq =>
      rw [Except.ok.injEq] at hr
      subst hr
      have hne : j ≠ pid := by
        intro hjp
        subst hjp
        rw [hres] at h2
        exact h2 rfl
      refine ⟨?_, by simp only [resolvePost]; omega⟩
      simp only [resolvePost]
      rw [if_neg hne]
  | setThreshold ha =>
    simp only [setAccuracyThreshold] at ha
    split_ifs at ha
    rw [Except.ok.injEq] at ha
    subst ha
    exact ⟨rfl, hid2⟩
  | pauseStep ha =>
    simp only [pause] at ha
    split_ifs at ha
    rw [Except.ok.injEq] at ha
    subst ha
    exact ⟨rfl, hid2⟩
  | unpauseStep ha =>
    simp only [unpause] at ha
    split_ifs at ha
    rw [Except.ok.injEq] at ha
    subst ha
    exact ⟨rfl, hid2⟩
  | grantStep ha =>
    simp only [grantOracleRole] at ha
    split_ifs at ha
    rw [Except.ok.injEq] at ha
    subst ha
    exact ⟨rfl, hid2⟩
  | revokeStep ha =>
    simp only [revokeOracleRole] at ha
    split_ifs at ha
    rw [Except.ok.injEq] at ha
    subst ha
    exact ⟨rfl, hid2⟩

lemma frozen_reachableFrom {s t : ContractState} (h : ReachableFrom s t)
    {j : Nat} (hid2 : j ≤ s.predictionCounter)
    (hres : (s.predictions j).isResolved = true) :
    t.predictions j = s.predictions j ∧ j ≤ t.predictionCounter := by
  induction h with
  | refl => exact ⟨rfl, hid2⟩
  | tail h1 h2 ih =>
    obtain ⟨heq, hle⟩ := ih
    obtain ⟨heq2, hle2⟩ := frozen_step h2 hle (by rw [heq]; exact hres)
    exact ⟨heq2.trans heq, hle2⟩

lemma resolve_ok_post {s s' : ContractState} {sender pid ap bt : Nat}
    (h : resolvePrediction s sender pid ap bt = .ok s') :
    0 < pid ∧ pid ≤ s'.predictionCounter ∧
      (s'.predictions pid).isResolved = true := by
  simp only [resolvePrediction] at h
  split_ifs at h with h1 h2 h3 h4 h5
  split at h
  · exact Except.noConfusion h
  case _ acc heq =>
    rw [Except.ok.injEq] at h
    subst h
    refine ⟨h1.1, by simp only [resolvePost]; exact h1.2, ?_⟩
    simp [resolvePost]

lemma resolve_already_resolved {t : ContractState} {sender pid ap bt : Nat}
    (h1 : 0 < pid) (h2 : pid ≤ t.predictionCounter)
    (h3 : (t.predictions pid).isResolved = true) :
    resolvePrediction t sender pid ap bt = .error "Prediction already resolved" := by
  simp only [resolvePrediction]
  rw [if_neg (not_not_intro ⟨h1, h2⟩), if_pos h3]

/-- Result object of the sentiment analysis block of
`GET /api/crypto/:symbol/analysis`. -/
structure SentimentSummary where
  bullish : Nat
  bearish : Nat
  neutral : Nat
  sentiment : String
  deriving DecidableEq

/-- Embedding of the sentiment analysis loop of the asset-analysis route:
`bullishCount` is incremented when `predictedPrice > currentPrice`,
`bearishCount` is incremented otherwise, and `neutral` is computed as
`filteredPredictions.length - bullishCount - bearishCount`. -/
def sentimentOf (preds : List Prediction) : SentimentSummary :=
  let bullishCount := preds.countP (fun p => decide (p.predictedPrice > p.currentPrice))
  let bearishCount := preds.countP (fun p => ! decide (p.predictedPrice > p.currentPrice))
  { bullish := bullishCount,
    bearish := bearishCount,
    neutral := preds.length - bullishCount - bearishCount,
    sentiment :=
      if bullishCount > bearishCount then "bullish"
      else if bearishCount > bullishCount then "bearish"
      else "neutral" }

/-- One request entry of the `POST /api/admin/bulk-resolve` body.  Both id
fields are optional since the handler accepts either `predictionId` or
`id`; `Option.none` models a missing (undefined) JSON field. -/
structure BulkEntry where
  predictionId : Option Nat
  id : Option Nat
  actualPrice : Nat
  deriving DecidableEq

/-- JavaScript `predictionId || id` on the entry: the `id` fallback is used
when `predictionId` is missing or falsy (0); a missing `id` yields the
falsy 0. -/
def resolveIdOf (e : BulkEntry) : Nat :=
  match e.predictionId with
  | some n => if n = 0 then e.id.getD 0 else n
  | none => e.id.getD 0

/-- Embedding of the loop of `POST /api/admin/bulk-resolve`: each entry is
validated and resolved independently against the evolving contract state;
a per-entry failure is appended to the error list and processing
continues with the next entry.  Returns the final contract state, the
list of successfully resolved ids (`results`), and the list of
`(id, message)` failures (`errors`). -/
def bulkResolve (s : ContractState) (sender blockTimestamp : Nat) :
    List BulkEntry → ContractState × List Nat × List (Nat × String)
  | [] => (s, [], [])
  | e :: rest =>
    let rid := resolveIdOf e
    if rid = 0 ∨ e.actualPrice = 0 then
      let r := bulkResolve s sender blockTimestamp rest
      (r.1, r.2.1, (rid, "Invalid prediction data") :: r.2.2)
    else
      match resolvePrediction s sender rid e.actualPrice blockTimestamp with
      | .ok s1 =>
        let r := bulkResolve s1 sender blockTimestamp rest
        (r.1, rid :: r.2.1, r.2.2)
      | .error msg =>
        let r := bulkResolve s sender blockTimestamp rest
        (r.1, r.2.1, (rid, msg) :: r.2.2)

/-- Concrete deployment used by the witnesses: deployer is address 7. -/
def exState0 : ContractState := initialState 7

/-- State after one `makePrediction` by the deployer (BTC, current 50000,
predicted 55000, target 3600, model LSTM, at block time 100). -/
def exState1 : ContractState :=
  match makePrediction exState0 7 "BTC" 50000 55000 3600 "LSTM" "{}" 100 with
  | .ok (t, _) => t
  | .error _ => exState0

/-- State after resolving prediction 1 at actual price 54000, block time 4000. -/
def exState2 : ContractState :=
  match resolvePrediction exState1 7 1 54000 4000 with
  | .ok t => t
  | .error _ => exState1

lemma exStep01 : Step exState0 exState1 :=
  Step.make (show makePrediction exState0 7 "BTC" 50000 55000 3600 "LSTM" "{}" 100 =
    .ok (exState1, 1) from rfl)

lemma exStep12 : Step exState1 exState2 :=
  Step.resolve (show resolvePrediction exState1 7 1 54000 4000 = .ok exState2 from rfl)

lemma exReach2 : Reachable 7 exState2 :=
  Relation.ReflTransGen.tail (Relation.ReflTransGen.single exStep01) exStep12

/-- One submission step used to build the bulk-resolve example state. -/
def exMake (s : ContractState) : ContractState :=
  match makePrediction s 7 "BTC" 50000 55000 3600 "LSTM" "{}" 100 with
  | .ok (t, _) => t
  | .error _ => s

/-- State holding four unresolved predictions (ids 1-4), all past their
target time at block time 4000. -/
def exState4 : ContractState := exMake (exMake (exMake (exMake exState0)))

/-- The spec's bulk example: four resolve requests of which exactly one
(id 999) references a nonexistent prediction. -/
def exBulkEntries : List BulkEntry :=
  [{ predictionId := some 1, id := none, actualPrice := 54000 },
   { predictionId := some 999, id := none, actualPrice := 54000 },
   { predictionId := some 2, id := none, actualPrice := 54000 },
   { predictionId := some 3, id := none, actualPrice := 54000 }]

/-- A prediction whose predicted price exactly equals its current price. -/
def eqPricePrediction : Prediction :=
  { emptyPrediction with currentPrice := 100, predictedPrice := 100 }

/-- C1 (amended): for positive inputs whose scaled difference does not
overflow `uint256`, `calculateAccuracy` returns the spec formula
`max(0, 10000 - floor(|predicted - actual| * 10000 / actual))` — the
truncated `Nat` subtraction below is exactly the clamped value — with
`actual` as the denominator; the call reverts exactly on checked-multiplication
overflow, which positive inputs can trigger. -/
theorem calculateAccuracy_formula (p a : Nat) (hp : 0 < p) (ha : 0 < a)
    (hbound : (if p > a then p - a else a - p) * BASIS_POINTS < UINT256) :
    calculateAccuracy p a =
      some (if p = a then BASIS_POINTS
            else BASIS_POINTS - (if p > a then p - a else a - p) * BASIS_POINTS / a) := by
  unfold calculateAccuracy
  by_cases hpa : p = a
  · rw [if_pos hpa, if_pos hpa]
  · rw [if_neg hpa, if_neg hpa]
    simp only
    rw [if_neg (not_le.mpr hbound), if_neg (by omega)]
    rcases le_or_lt BASIS_POINTS ((if p > a then p - a else a - p) * BASIS_POINTS / a) with
      hge | hlt
    · rw [if_pos hge, Nat.sub_eq_zero_of_le hge]
    · rw [if_neg (not_le.mpr hlt)]

/-- C1 (counterexample): two positive `uint256` inputs on which the source
`calculateAccuracy` reverts (checked multiplication overflow), refuting
"never raises for any two positive inputs". -/
theorem calculateAccuracy_overflow_counterexample :
    0 < (2 : Nat) ^ 255 ∧ 0 < (1 : Nat) ∧ (2 : Nat) ^ 255 < UINT256 ∧
      calculateAccuracy (2 ^ 255) 1 = none := by
  refine ⟨by positivity, by omega, by norm_num [UINT256], by decide⟩

theorem calculateAccuracy_formula_witness :
    calculateAccuracy 50000 45000 = some 8889 :=
  (calculateAccuracy_formula 50000 45000 (by decide) (by decide) (by decide)).trans
    (by decide)

/-- C4 (counterexample): the spec example `accuracy(50000, 25000) == 5000`
fails on the code — with `actual = 25000` in the denominator the
percentage difference is 100%, so the function returns 0. -/
theorem calculateAccuracy_example_counterexample :
    calculateAccuracy 50000 25000 = some 0 ∧
      calculateAccuracy 50000 25000 ≠ some 5000 := by decide

/-- C4 (amended): `calculateAccuracy(50000, 50000) = 10000` holds, but
`calculateAccuracy(50000, 25000) = 0`; the spec's expected 5000 is the
value of the transposed call `calculateAccuracy(25000, 50000)`. -/
theorem calculateAccuracy_concrete_values :
    calculateAccuracy 50000 50000 = some 10000 ∧
      calculateAccuracy 50000 25000 = some 0 ∧
      calculateAccuracy 25000 50000 = some 5000 := by decide

/-- C10: the equality branch returns before any arithmetic, so
`calculateAccuracy x x = 10000` for every `x`, including `x = 0`, without
reverting; the division by `actualPrice` runs only when the two arguments
differ. -/
theorem calculateAccuracy_self (x : Nat) :
    calculateAccuracy x x = some BASIS_POINTS := by
  simp [calculateAccuracy]

/-- C2: the stats-consistency invariant holds at every reachable state —
per user, `totalPredictions` counts that user's stored predictions and
`accuratePredictions` counts the resolved ones with `wasAccurate = true` —
and every successful `makePrediction` and `resolvePrediction` preserves it. -/
theorem stats_consistency :
    (∀ d s, Reachable d s → StatsInv s) ∧
    (∀ (s s' : ContractState) (sender : Nat) (c : String) (cp pp tt : Nat)
        (mt ad : String) (bt ret : Nat),
      makePrediction s sender c cp pp tt mt ad bt = .ok (s', ret) →
      StatsInv s → StatsInv s') ∧
    (∀ (s s' : ContractState) (sender pid ap bt : Nat),
      resolvePrediction s sender pid ap bt = .ok s' → StatsInv s → StatsInv s') :=
  ⟨fun _ _ h => statsInv_reachable h,
   fun _ _ _ _ _ _ _ _ _ _ _ h inv => statsInv_make h inv,
   fun _ _ _ _ _ _ h inv => statsInv_resolve h inv⟩

theorem stats_consistency_witness : StatsInv exState2 :=
  stats_consistency.1 7 exState2 exReach2

/-- C3: resolution is write-once — after one successful `resolvePrediction`
on an id, in every later reachable state that prediction's stored record is
unchanged and every further `resolvePrediction` on the same id fails with
the `Prediction already resolved` error. -/
theorem resolve_write_once {s s' : ContractState} {sender pid ap bt : Nat}
    (hok : resolvePrediction s sender pid ap bt = .ok s')
    {t : ContractState} (hrt : ReachableFrom s' t) :
    t.predictions pid = s'.predictions pid ∧
      ∀ sender2 ap2 bt2,
        resolvePrediction t sender2 pid ap2 bt2 =
          .error "Prediction already resolved" := by
  obtain ⟨hp1, hp2, hp3⟩ := resolve_ok_post hok
  obtain ⟨heq, hle⟩ := frozen_reachableFrom hrt hp2 hp3
  refine ⟨heq, fun sender2 ap2 bt2 => resolve_already_resolved hp1 hle ?_⟩
  rw [heq]
  exact hp3

theorem resolve_write_once_witness :
    exState2.predictions 1 = exState2.predictions 1 ∧
      ∀ sender2 ap2 bt2,
        resolvePrediction exState2 sender2 1 ap2 bt2 =
          .error "Prediction already resolved" :=
  @resolve_write_once exState1 exState2 7 1 54000 4000 rfl exState2
    Relation.ReflTransGen.refl

/-- C5: at every reachable state, `getUserAccuracyRate` returns 0 for a
user with no predictions and otherwise
`floor(accuratePredictions * 10000 / totalPredictions)`, whose denominator
counts all of the user's stored predictions, unresolved ones included. -/
theorem getUserAccuracyRate_spec {d : Nat} {s : ContractState}
    (h : Reachable d s) (u : Nat) :
    getUserAccuracyRate s u =
      if countUserPreds s u = 0 then 0
      else countUserAccurate s u * BASIS_POINTS / countUserPreds s u := by
  obtain ⟨h1, h2⟩ := statsInv_reachable h u
  unfold getUserAccuracyRate
  rw [h1, h2]

theorem getUserAccuracyRate_spec_witness :
    getUserAccuracyRate exState2 7 =
      if countUserPreds exState2 7 = 0 then 0
      else countUserAccurate exState2 7 * BASIS_POINTS / countUserPreds exState2 7 :=
  getUserAccuracyRate_spec exReach2 7

/-- C6: while `paused` is set every `makePrediction` call fails with the
`EnforcedPause` error (and, reverting, writes no state), while
`resolvePrediction` never reads the paused flag: a resolve that succeeds
unpaused succeeds identically (up to the flag itself) when paused. -/
theorem paused_blocks_make_not_resolve :
    (∀ (s : ContractState) (sender : Nat) (c : String) (cp pp tt : Nat)
        (mt ad : String) (bt : Nat), s.paused = true →
      makePrediction s sender c cp pp tt mt ad bt = .error "EnforcedPause") ∧
    (∀ (s s' : ContractState) (sender pid ap bt : Nat),
      resolvePrediction s sender pid ap bt = .ok s' →
      resolvePrediction { s with paused := true } sender pid ap bt =
        .ok { s' with paused := true }) := by
  constructor
  · intro s sender c cp pp tt mt ad bt hp
    simp [makePrediction, hp]
  · intro s s' sender pid ap bt h
    simp only [resolvePrediction] at h ⊢
    split_ifs at h with h1 h2 h3 h4 h5
    rw [if_neg (not_not_intro h1), if_neg (by rw [Bool.not_eq_true] at h2; simp [h2]),
      if_neg (not_not_intro h3), if_neg (by omega), if_neg h5]
    split at h
    · exact Except.noConfusion h
    case _ acc heq =>
      rw [Except.ok.injEq] at h
      subst h
      rfl

theorem paused_blocks_make_not_resolve_witness :
    makePrediction { exState1 with paused := true } 7 "BTC" 50000 55000 7200
        "LSTM" "{}" 200 = .error "EnforcedPause" ∧
      resolvePrediction { exState1 with paused := true } 7 1 54000 4000 =
        .ok { exState2 with paused := true } :=
  ⟨paused_blocks_make_not_resolve.1 { exState1 with paused := true } 7 "BTC"
      50000 55000 7200 "LSTM" "{}" 200 rfl,
   paused_blocks_make_not_resolve.2 exState1 exState2 7 1 54000 4000 rfl⟩

lemma countP_split {α : Type} (l : List α) (p : α → Bool) :
    l.countP p + l.countP (fun a => ! p a) = l.length := by
  induction l with
  | nil => rfl
  | cons a t ih =>
    simp only [List.countP_cons, List.length_cons]
    cases h : p a <;> simp [h] <;> omega

/-- C7: `bulkResolve` gives every entry of the batch exactly one outcome —
the resolved count plus the failed count always equals the batch size, so
no per-entry failure aborts the remaining entries — and on the spec's
example batch of four requests with one nonexistent id it reports
3 resolved, 1 failed, with the three valid ids durably resolved. -/
theorem bulkResolve_partial_success :
    (∀ (s : ContractState) (sender bt : Nat) (entries : List BulkEntry),
      (bulkResolve s sender bt entries).2.1.length +
        (bulkResolve s sender bt entries).2.2.length = entries.length) ∧
    ((bulkResolve exState4 7 4000 exBulkEntries).2.1.length = 3 ∧
      (bulkResolve exState4 7 4000 exBulkEntries).2.2.length = 1 ∧
      ((bulkResolve exState4 7 4000 exBulkEntries).1.predictions 1).isResolved = true ∧
      ((bulkResolve exState4 7 4000 exBulkEntries).1.predictions 2).isResolved = true ∧
      ((bulkResolve exState4 7 4000 exBulkEntries).1.predictions 3).isResolved = true) := by
  constructor
  · intro s sender bt entries
    induction entries generalizing s with
    | nil => rfl
    | cons e rest ih =>
      simp only [bulkResolve]
      split_ifs with hval
      · simp only [List.length_cons]
        have := ih s
        omega
      · split
        · rename_i s1 hr
          have h0 := ih s1
          simp only [List.length_cons]
          omega
        · rename_i msg hr
          have h0 := ih s
          simp only [List.length_cons]
          omega
  · decide

/-- C8 (counterexample): a prediction with `predictedPrice` exactly equal to
`currentPrice` is counted in the bearish bucket by the route's `else`
branch, so the residual neutral bucket stays 0 instead of counting the
equal-price prediction. -/
theorem sentiment_equal_price_counterexample :
    (sentimentOf [eqPricePrediction]).bullish = 0 ∧
      (sentimentOf [eqPricePrediction]).bearish = 1 ∧
      (sentimentOf [eqPricePrediction]).neutral = 0 ∧
      List.countP (fun p => decide (p.predictedPrice = p.currentPrice))
        [eqPricePrediction] = 1 := by decide

/-- C8 (amended): every prediction with `predictedPrice > currentPrice` is
bullish and every other prediction — equality included — is bearish; the
residual neutral bucket is always 0, so equal-price predictions are
reported as bearish rather than neutral. -/
theorem sentimentOf_classification (preds : List Prediction) :
    (sentimentOf preds).bullish =
      preds.countP (fun p => decide (p.predictedPrice > p.currentPrice)) ∧
    (sentimentOf preds).bearish =
      preds.countP (fun p => decide (p.predictedPrice ≤ p.currentPrice)) ∧
    (sentimentOf preds).neutral = 0 := by
  refine ⟨rfl, ?_, ?_⟩
  · show preds.countP _ = preds.countP _
    apply List.countP_congr
    intro p hp
    simp [Nat.not_lt]
  · show preds.length - _ - _ = 0
    have := countP_split preds (fun p => decide (p.predictedPrice > p.currentPrice))
    omega

/-- C9: a successful `resolvePrediction` changes only the resolved
prediction's four resolution fields and the accuracy aggregates
(`accuratePredictions`, `totalAccuracyScore`) of the predictor's
`UserStats` and the prediction's `ModelPerformance`; every other piece of
storage — counters, thresholds, flags, roles, tracking arrays, other
predictions, other users' and models' records, and the per-model/per-asset
counts of the predictor — is unchanged. -/
theorem resolvePrediction_frame {s s' : ContractState} {sender pid ap bt : Nat}
    (h : resolvePrediction s sender pid ap bt = .ok s') :
    s'.predictionCounter = s.predictionCounter ∧
    s'.accuracyThreshold = s.accuracyThreshold ∧
    s'.paused = s.paused ∧
    s'.hasOracleRole = s.hasOracleRole ∧
    s'.hasAdminRole = s.hasAdminRole ∧
    s'.userPredictions = s.userPredictions ∧
    s'.cryptoPredictions = s.cryptoPredictions ∧
    s'.modelTypePredictions = s.modelTypePredictions ∧
    (∀ j, j ≠ pid → s'.predictions j = s.predictions j) ∧
    (s'.predictions pid).id = (s.predictions pid).id ∧
    (s'.predictions pid).predictor = (s.predictions pid).predictor ∧
    (s'.predictions pid).cryptocurrency = (s.predictions pid).cryptocurrency ∧
    (s'.predictions pid).currentPrice = (s.predictions pid).currentPrice ∧
    (s'.predictions pid).predictedPrice = (s.predictions pid).predictedPrice ∧
    (s'.predictions pid).predictionTimestamp = (s.predictions pid).predictionTimestamp ∧
    (s'.predictions pid).targetTimestamp = (s.predictions pid).targetTimestamp ∧
    (s'.predictions pid).modelType = (s.predictions pid).modelType ∧
    (s'.predictions pid).additionalData = (s.predictions pid).additionalData ∧
    (s'.predictions pid).isResolved = true ∧
    (∀ u, (s'.userStats u).totalPredictions = (s.userStats u).totalPredictions ∧
      (s'.userStats u).modelTypeCount = (s.userStats u).modelTypeCount ∧
      (s'.userStats u).cryptoCount = (s.userStats u).cryptoCount) ∧
    (∀ u, u ≠ (s.predictions pid).predictor → s'.userStats u = s.userStats u) ∧
    (∀ m, (s'.modelPerformance m).totalPredictions =
        (s.modelPerformance m).totalPredictions ∧
      (s'.modelPerformance m).cryptoPerformance =
        (s.modelPerformance m).cryptoPerformance) ∧
    (∀ m, m ≠ (s.predictions pid).modelType →
      s'.modelPerformance m = s.modelPerformance m) := by
  simp only [resolvePrediction] at h
  split_ifs at h with h1 h2 h3 h4 h5
  split at h
  · exact Except.noConfusion h
  case _ acc heq =>
    rw [Except.ok.injEq] at h
    subst h
    refine ⟨rfl, rfl, rfl, rfl, rfl, rfl, rfl, rfl,
      fun j hj => ?_, ?_, ?_, ?_, ?_, ?_, ?_, ?_, ?_, ?_, ?_,
      fun u => ?_, fun u hu => ?_, fun m => ?_, fun m hm => ?_⟩
    · simp [resolvePost, hj]
    · simp [resolvePost]
    · simp [resolvePost]
    · simp [resolvePost]
    · simp [resolvePost]
    · simp [resolvePost]
    · simp [resolvePost]
    · simp [resolvePost]
    · simp [resolvePost]
    · simp [resolvePost]
    · simp [resolvePost]
    · by_cases hu : u = (s.predictions pid).predictor <;>
        simp [resolvePost, hu]
    · simp [resolvePost, hu]
    · by_cases hm : m = (s.predictions pid).modelType <;>
        simp [resolvePost, hm]
    · simp [resolvePost, hm]

theorem resolvePrediction_frame_witness :
    exState2.predictionCounter = exState1.predictionCounter ∧
      exState2.userPredictions = exState1.userPredictions ∧
      (exState2.userStats 7).totalPredictions =
        (exState1.userStats 7).totalPredictions ∧
      (exState2.predictions 1).isResolved = true :=
  by
  have h := @resolvePrediction_frame exState1 exState2 7 1 54000 4000 rfl
  obtain ⟨hc, -, -, -, -, hup, -, -, -, -, -, -, -, -, -, -, -, -, hres, hstats,
    -, -, -⟩ := h
  exact ⟨hc, hup, (hstats 7).1, hres⟩

end PredictionLogger
